import Mathlib

/-!
Verification of the challenge-generation and progression-tracking engine of
the "Dia & Noite" educational backend (a Python web service).

Shallow embedding conventions used throughout:
* Python floats are modelled as exact rationals.
* Wall-clock reads (datetime.now) become an explicit `now : Rat` parameter.
* random.shuffle / random.sample outcomes become explicit parameters,
  constrained by `List.Perm` / `List.Subperm` side conditions.
* Python dicts become association lists (insertion order preserved);
  a KeyError becomes `Except.error`.
* The global animal database (data/animals_data.py, ANIMALS_DB) is passed as
  an explicit `db` parameter; the concrete DB from the source is `ANIMALS_DB`.
-/

namespace DiaNoite

/-- Animal record, from data/animals_data.py (media/file fields that no
claim touches are kept as plain strings). -/
structure Animal where
  id : Int
  name_pt : String
  habitat : String
  period : String
  diet : String
  deriving Repr, DecidableEq

/-- HABITATS dict from data/animals_data.py, as an association list in
insertion order. -/
def HABITATS : List (String × String) :=
  [("floresta", "Floresta Tropical"),
   ("savana", "Savana Africana"),
   ("oceano", "Oceano"),
   ("deserto", "Deserto"),
   ("montanha", "Montanhas"),
   ("polo", "Regiões Polares")]

/-- ANIMALS_DB from data/animals_data.py. -/
def ANIMALS_DB : List Animal :=
  [⟨1, "Leão", "savana", "diurno", "Carnívoro"⟩,
   ⟨2, "Elefante", "savana", "diurno", "Herbívoro"⟩,
   ⟨3, "Coruja", "floresta", "noturno", "Carnívoro"⟩,
   ⟨4, "Macaco", "floresta", "diurno", "Omnívoro"⟩,
   ⟨5, "Golfinho", "oceano", "diurno", "Carnívoro"⟩]

/-- get_animal_data: first animal in the db with the given id, else a
ValueError. -/
def getAnimalData (db : List Animal) (animal_id : Int) : Except String Animal :=
  match db.find? (fun a => a.id == animal_id) with
  | some a => .ok a
  | none => .error ("Animal com ID " ++ toString animal_id ++ " não encontrado")

/-- The candidate pool inside get_random_animals after the habitat and
exclude_id filters. -/
def habitatCandidates (db : List Animal) (habitat : String) (exclude_id : Int) :
    List Animal :=
  (db.filter (fun a => a.habitat == habitat)).filter (fun a => a.id != exclude_id)

/-- get_random_animals(habitat, exclude_id, count) returns random.sample of
the filtered pool, of size min count (pool length). A sample outcome is any
list drawn without replacement from the pool, in any order: a sub-permutation
of the pool with that length. -/
def IsRandomAnimals (db : List Animal) (habitat : String) (exclude_id : Int)
    (count : Nat) (sample : List Animal) : Prop :=
  sample.Subperm (habitatCandidates db habitat exclude_id) ∧
    sample.length = min count (habitatCandidates db habitat exclude_id).length

/-- AudioChallenge._create_options: the correct name followed by the sampled
distractor names, then shuffled; an outcome is any permutation of that list.
The relation holds of exactly the lists get_options can return. -/
def IsAudioOptions (db : List Animal) (an : Animal) (out : List String) : Prop :=
  ∃ sample : List Animal,
    IsRandomAnimals db an.habitat an.id 3 sample ∧
      out.Perm (an.name_pt :: sample.map Animal.name_pt)

/-- VisualChallenge._create_options: textually identical algorithm to the
audio variant (visual_challenge.py lines 39-49). -/
def IsVisualOptions (db : List Animal) (an : Animal) (out : List String) : Prop :=
  ∃ sample : List Animal,
    IsRandomAnimals db an.habitat an.id 3 sample ∧
      out.Perm (an.name_pt :: sample.map Animal.name_pt)

/-- ClassificationChallenge.get_options: a fixed three-option list. -/
def classificationOptions : List String := ["Carnívoro", "Herbívoro", "Omnívoro"]

/-- The values of the HABITATS dict, in insertion order (list(
self.habitat_options.values()) in habitat_challenge.py). -/
def habitatValues : List String := HABITATS.map Prod.snd

/-- HabitatChallenge.get_options applied to a concrete shuffle outcome:
options = shuffled habitat values truncated to the first 4. -/
def habitatGetOptions (shuffled : List String) : List String := shuffled.take 4

/-- HabitatChallenge sets correct_answer = HABITATS[animal.habitat]. -/
def habitatCorrectAnswer (an : Animal) : Except String String :=
  match HABITATS.lookup an.habitat with
  | some h => .ok h
  | none => .error ("KeyError: " ++ an.habitat)

/-- Python str.strip(): drop ASCII whitespace from both ends. -/
def pyStrip (s : String) : String :=
  ⟨((s.data.dropWhile Char.isWhitespace).reverse.dropWhile Char.isWhitespace).reverse⟩

/-- Python str.lower() at the ASCII level (the repository data only mixes
case in ASCII letters). -/
def pyLowerChar (c : Char) : Char :=
  if c.isUpper then Char.ofNat (c.toNat + 32) else c

/-- Lower-case every character. -/
def pyLower (s : String) : String := ⟨s.data.map pyLowerChar⟩

/-- Python answer.strip().lower() == correct.lower(): the validation rule
shared by every challenge variant. -/
def pyValidateAnswer (correct answer : String) : Bool :=
  pyLower (pyStrip answer) == pyLower correct

/-! ## Timed decorator (decorators/timed_decorator.py)

The decorator state; the wrapped challenge only matters through the result
of its validate_answer call, which enters as a `Bool` parameter. -/

/-- Mutable state of a TimedChallengeDecorator instance. -/
structure TimedState where
  time_limit_seconds : Int
  start_time : Option Rat
  end_time : Option Rat
  answer_submitted : Bool
  correct_answer : String
  deriving Repr, DecidableEq

/-- Round to nearest integer, ties to even (Python round with floats,
modelled exactly on rationals). -/
def rne (q : Rat) : Int :=
  let f := ⌊q⌋
  let r := q - f
  if r < 1/2 then f
  else if 1/2 < r then f + 1
  else if f % 2 = 0 then f else f + 1

/-- Python round(q, 2). -/
def round2 (q : Rat) : Rat := (rne (q * 100) : Rat) / 100

/-- get_elapsed_time: 0 if the timer was never started, else the latched
end time (or now) minus the start time, rounded to 2 decimals. -/
def getElapsedTime (st : TimedState) (now : Rat) : Rat :=
  match st.start_time with
  | none => 0
  | some s =>
    let endPoint := match st.end_time with
      | some e => e
      | none => now
    round2 (endPoint - s)

/-- get_remaining_time: limit if never started, else limit minus elapsed,
rounded and floored at 0. -/
def getRemainingTime (st : TimedState) (now : Rat) : Rat :=
  match st.start_time with
  | none => (st.time_limit_seconds : Rat)
  | some _ => max 0 (round2 ((st.time_limit_seconds : Rat) - getElapsedTime st now))

/-- is_timed_out: false if never started, else elapsed strictly above the
limit. -/
def isTimedOut (st : TimedState) (now : Rat) : Bool :=
  match st.start_time with
  | none => false
  | some _ => (st.time_limit_seconds : Rat) < getElapsedTime st now

/-- start_timer: records the start timestamp and clears the latch. -/
def startTimer (st : TimedState) (now : Rat) : TimedState :=
  { st with start_time := some now, end_time := none, answer_submitted := false }

/-- reset_timer. -/
def resetTimer (st : TimedState) : TimedState :=
  { st with start_time := none, end_time := none, answer_submitted := false }

/-- The submission latch shared by validate_answer and
validate_answer_with_timing: the end time is captured only on the first
submission. -/
def latchSubmission (st : TimedState) (now : Rat) : TimedState :=
  if st.answer_submitted then st
  else { st with end_time := some now, answer_submitted := true }

/-- TimedChallengeDecorator.validate_answer. `wrappedResult` is what the
wrapped challenge validate_answer returns for the submitted answer. -/
def validateAnswer (st : TimedState) (wrappedResult : Bool) (now : Rat) :
    Bool × TimedState :=
  let st1 := latchSubmission st now
  if isTimedOut st1 now then (false, st1) else (wrappedResult, st1)

/-- Return record of validate_answer_with_timing. -/
structure TimingResult where
  is_correct : Bool
  time_taken : Rat
  timed_out : Bool
  time_remaining : Rat
  time_limit : Int
  correct_answer : Option String
  timeout_message : Option String
  deriving Repr, DecidableEq

/-- TimedChallengeDecorator.validate_answer_with_timing. -/
def validateAnswerWithTiming (st : TimedState) (wrappedResult : Bool) (now : Rat) :
    TimingResult × TimedState :=
  let st1 := latchSubmission st now
  let time_taken := getElapsedTime st1 now
  let timed_out := isTimedOut st1 now
  let time_remaining := getRemainingTime st1 now
  let is_correct := if timed_out then false else wrappedResult
  ({ is_correct := is_correct
     time_taken := time_taken
     timed_out := timed_out
     time_remaining := time_remaining
     time_limit := st.time_limit_seconds
     correct_answer := if is_correct then none else some st.correct_answer
     timeout_message :=
       if is_correct then none
       else if timed_out then
         some ("Tempo esgotado! Limite: " ++ toString st.time_limit_seconds ++ "s")
       else none }, st1)

/-- States reachable through the decorator API (constructor, start_timer,
reset_timer, the validate calls) keep the submission latch and the end
timestamp in sync: the answer has been submitted iff an end time is
recorded. -/
def TimedWF (st : TimedState) : Prop :=
  st.answer_submitted = false ↔ st.end_time = none

/-! ## Level progression observer (observers/level_progression_observer.py) -/

/-- The Python value stored in challenge.difficulty: an int everywhere in
the repository, but _calculate_xp looks it up in a str-keyed dict, so both
shapes are modelled. -/
inductive PyDiff where
  | int (n : Int)
  | str (s : String)
  deriving Repr, DecidableEq

/-- difficulty_map.get(difficulty, 0) with difficulty_map =
{easy: 0, medium: 5, hard: 10}; an int key never matches. -/
def difficultyBonus : PyDiff → Rat
  | .int _ => 0
  | .str s =>
    if s = "easy" then 0 else if s = "medium" then 5
    else if s = "hard" then 10 else 0

/-- XP_MULTIPLIERS class constant. -/
def XP_MULTIPLIERS : List (String × Rat) :=
  [("audio", 1), ("visual", 11/10), ("habitat", 12/10), ("classification", 3/2)]

/-- XP_MULTIPLIERS.get(challenge_type, 1.0). -/
def typeMultiplier (t : String) : Rat := (XP_MULTIPLIERS.lookup t).getD 1

/-- The speed bonus ladder in _calculate_xp. -/
def speedBonus (time_taken : Rat) : Rat :=
  if time_taken < 5 then 10
  else if time_taken < 10 then 5
  else if time_taken < 20 then 2
  else 0

/-- Python int() applied to a rational: truncation toward zero. -/
def pyInt (q : Rat) : Int := if 0 ≤ q then ⌊q⌋ else ⌈q⌉

/-- LevelProgressionObserver._calculate_xp. -/
def calculateXp (ctype : String) (difficulty : PyDiff) (is_correct : Bool)
    (time_taken : Rat) : Int :=
  if !is_correct then 0
  else pyInt ((10 + difficultyBonus difficulty) * typeMultiplier ctype
                + speedBonus time_taken)

/-- LEVELS class constant: (level, xp_required) in sorted key order. -/
def LEVELS : List (Nat × Int) :=
  [(1, 0), (2, 100), (3, 300), (4, 600), (5, 1000), (6, 1500), (7, 2200), (8, 3000)]

/-- The loop body of _check_level_up: walk the sorted table, keep updating
the candidate level while the threshold is met, stop at the first miss. -/
def levelScan : List (Nat × Int) → Int → Nat → Nat
  | [], _, cur => cur
  | (lv, req) :: rest, xp, cur =>
    if req ≤ xp then levelScan rest xp lv else cur

/-- LevelProgressionObserver._check_level_up as a function of the stored XP
and level. -/
def checkLevelUp (xp : Int) (cur : Nat) : Nat := levelScan LEVELS xp cur

/-- Per-user record of the level progression observer. The level-up history
keeps only the (old_level, new_level) pairs; timestamps are not modelled. -/
structure ProgUser where
  level : Nat
  current_xp : Int
  total_xp_earned : Int
  challenges_completed : Nat
  level_up_history : List (Nat × Nat)
  deriving Repr, DecidableEq

/-- _initialize_user. -/
def initProgUser : ProgUser := ⟨1, 0, 0, 0, []⟩

/-- The arguments of one completion notification that the XP observer
reads. -/
structure CompletionArgs where
  ctype : String
  difficulty : PyDiff
  time_taken : Rat
  is_correct : Bool
  deriving Repr

/-- LevelProgressionObserver.on_challenge_completed restricted to one user
record. -/
def progOnChallengeCompleted (u : ProgUser) (a : CompletionArgs) : ProgUser :=
  let xp := calculateXp a.ctype a.difficulty a.is_correct a.time_taken
  let u1 := { u with current_xp := u.current_xp + xp,
                     total_xp_earned := u.total_xp_earned + xp,
                     challenges_completed := u.challenges_completed + 1 }
  let newLevel := checkLevelUp u1.current_xp u1.level
  let u2 := { u1 with level := newLevel }
  if u.level < newLevel then
    { u2 with level_up_history := u2.level_up_history ++ [(u.level, newLevel)] }
  else u2

/-- LevelProgressionObserver.award_bonus_xp restricted to one user record. -/
def awardBonusXp (u : ProgUser) (amount : Int) : ProgUser :=
  let u1 := { u with current_xp := u.current_xp + amount,
                     total_xp_earned := u.total_xp_earned + amount }
  let newLevel := checkLevelUp u1.current_xp u1.level
  let u2 := { u1 with level := newLevel }
  if u.level < newLevel then
    { u2 with level_up_history := u2.level_up_history ++ [(u.level, newLevel)] }
  else u2

/-- A fresh user followed by a sequence of completion notifications. -/
def runCompletions (l : List CompletionArgs) : ProgUser :=
  l.foldl progOnChallengeCompleted initProgUser

/-- Claim-side reading of the threshold table: the highest level whose XP
threshold is less than or equal to the cumulative XP (inclusive boundary). -/
def claimHighestLevel (xp : Int) : Nat :=
  if 3000 ≤ xp then 8
  else if 2200 ≤ xp then 7
  else if 1500 ≤ xp then 6
  else if 1000 ≤ xp then 5
  else if 600 ≤ xp then 4
  else if 300 ≤ xp then 3
  else if 100 ≤ xp then 2
  else 1

/-- Claim-side type multiplier table. -/
def claimTypeMultiplier (t : String) : Rat :=
  if t = "audio" then 1
  else if t = "visual" then 11/10
  else if t = "habitat" then 12/10
  else if t = "classification" then 3/2
  else 1

/-- Claim-side speed bonus. -/
def claimSpeedBonus (time_taken : Rat) : Rat :=
  if time_taken < 5 then 10
  else if time_taken < 10 then 5
  else if time_taken < 20 then 2
  else 0

/-- Claim-side difficulty bonus: a named-tier lookup (easy=0, medium=5,
hard=10); any other difficulty value, an integer in particular, degenerates
to 0. -/
def claimDifficultyBonus : PyDiff → Rat
  | .int _ => 0
  | .str s =>
    if s = "easy" then 0 else if s = "medium" then 5
    else if s = "hard" then 10 else 0

/-- Claim-side XP formula: floor((10 + difficultyBonus) * typeMultiplier +
speedBonus). -/
def claimXp (ctype : String) (difficulty : PyDiff) (time_taken : Rat) : Int :=
  ⌊(10 + claimDifficultyBonus difficulty) * claimTypeMultiplier ctype
      + claimSpeedBonus time_taken⌋

/-! ## Cognitive analytics (cognitive_module/cognitive_analytics.py) -/

/-- One bucket of the by_type dict. -/
structure TypeStats where
  total : Nat
  correct : Nat
  accuracy : Rat
  deriving Repr, DecidableEq

/-- Per-user record of CognitiveAnalytics (timestamp fields are not
modelled; no claim touches them). -/
structure CogUser where
  total_challenges : Nat
  correct_answers : Nat
  incorrect_answers : Nat
  accuracy_rate : Rat
  by_type : List (String × TypeStats)
  animals_discovered : List Int
  current_level : Nat
  deriving Repr, DecidableEq

/-- CognitiveAnalytics.initialize_user: the by_type dict starts with
exactly the four initial challenge types and is never extended. -/
def initCogUser : CogUser :=
  { total_challenges := 0
    correct_answers := 0
    incorrect_answers := 0
    accuracy_rate := 0
    by_type := [("audio", ⟨0, 0, 0⟩), ("visual", ⟨0, 0, 0⟩),
                ("habitat", ⟨0, 0, 0⟩), ("classification", ⟨0, 0, 0⟩)]
    animals_discovered := []
    current_level := 1 }

/-- CognitiveAnalytics._calculate_level, as a function of the already
updated totals and the previous stored level. -/
def calculateLevel (total : Nat) (accuracy : Rat) (current_level : Nat) : Nat :=
  if total < 5 then 1
  else if total < 15 ∧ 60 ≤ accuracy then 2
  else if total < 30 ∧ 70 ≤ accuracy then 3
  else if total < 50 ∧ 80 ≤ accuracy then 4
  else if 85 ≤ accuracy then 5
  else max 1 current_level

/-- CognitiveAnalytics._calculate_points. -/
def calculatePoints (is_correct : Bool) (time_taken : Rat) : Nat :=
  if !is_correct then 0
  else 10 + (if time_taken < 10 then 5 else if time_taken < 20 then 2 else 0)

/-- The data of a challenge instance that the analytics and the factory
read: discriminator, animal, difficulty, correct answer. -/
structure ChallengeData where
  ctype : String
  animal_id : Int
  difficulty : Int
  correct_answer : String
  deriving Repr, DecidableEq

/-- In-place update of one dict value (the dict keys are unchanged). -/
def updateAssoc (l : List (String × TypeStats)) (k : String) (v : TypeStats) :
    List (String × TypeStats) :=
  l.map (fun p => if p.1 = k then (k, v) else p)

/-- The record returned by record_response. -/
structure RecordResult where
  is_correct : Bool
  correct_answer : Option String
  time_taken : Rat
  points_earned : Nat
  current_accuracy : Rat
  type_accuracy : Rat
  current_level : Nat
  animals_discovered : Nat
  deriving Repr, DecidableEq

/-- CognitiveAnalytics.record_response restricted to one user record. The
by_type access user[by_type][challenge_type] raises KeyError for a type
outside the four initial buckets; Python leaves the already performed
global-counter mutations in place when it raises, while the Except model
simply reports the error. -/
def recordResponse (u : CogUser) (ch : ChallengeData) (answer : String)
    (time_taken : Rat) : Except String (CogUser × RecordResult) :=
  let is_correct := pyValidateAnswer ch.correct_answer answer
  let total := u.total_challenges + 1
  let correct := if is_correct then u.correct_answers + 1 else u.correct_answers
  let incorrect := if is_correct then u.incorrect_answers else u.incorrect_answers + 1
  let accuracy : Rat := (correct : Rat) / (total : Rat) * 100
  match u.by_type.lookup ch.ctype with
  | none => .error ("KeyError: " ++ ch.ctype)
  | some ts =>
    let tsTotal := ts.total + 1
    let tsCorrect := if is_correct then ts.correct + 1 else ts.correct
    let tsAcc : Rat := (tsCorrect : Rat) / (tsTotal : Rat) * 100
    let discovered :=
      if is_correct ∧ ch.animal_id ∉ u.animals_discovered then
        u.animals_discovered ++ [ch.animal_id]
      else u.animals_discovered
    let u1 : CogUser :=
      { total_challenges := total
        correct_answers := correct
        incorrect_answers := incorrect
        accuracy_rate := accuracy
        by_type := updateAssoc u.by_type ch.ctype ⟨tsTotal, tsCorrect, tsAcc⟩
        animals_discovered := discovered
        current_level := calculateLevel total accuracy u.current_level }
    .ok (u1,
      { is_correct := is_correct
        correct_answer := if is_correct then none else some ch.correct_answer
        time_taken := time_taken
        points_earned := calculatePoints is_correct time_taken
        current_accuracy := accuracy
        type_accuracy := tsAcc
        current_level := u1.current_level
        animals_discovered := discovered.length })

/-- Claim-side level rule for the analytics observer: total<5 gives 1, then
the (total, accuracy) ladder, otherwise the previous level floored at 1. -/
def claimCogLevel (total : Nat) (accuracy : Rat) (prev : Nat) : Nat :=
  if total < 5 then 1
  else if total < 15 ∧ 60 ≤ accuracy then 2
  else if total < 30 ∧ 70 ≤ accuracy then 3
  else if total < 50 ∧ 80 ≤ accuracy then 4
  else if 85 ≤ accuracy then 5
  else max 1 prev

/-! ## Achievement observer (observers/achievement_observer.py) -/

/-- The per-user statistics snapshot. fastest_time starts at float inf,
modelled as none; accuracy_100 is first written on the first completion and
read with get(.., False), so a Bool starting false is faithful. -/
structure AchStats where
  total_completed : Nat
  total_correct : Nat
  current_streak : Nat
  fastest_time : Option Rat
  type_counts : List (String × Nat)
  animals_discovered : List Int
  night_challenges : Nat
  day_challenges : Nat
  accuracy_100 : Bool
  deriving Repr, DecidableEq

/-- _initialize_user stats. -/
def initAchStats : AchStats :=
  { total_completed := 0
    total_correct := 0
    current_streak := 0
    fastest_time := none
    type_counts := [("audio", 0), ("visual", 0), ("habitat", 0), ("classification", 0)]
    animals_discovered := []
    night_challenges := 0
    day_challenges := 0
    accuracy_100 := false }

/-- Per-user record of the achievement observer. The unlock history keeps
achievement ids in unlock order; timestamps are not modelled. -/
structure AchUser where
  unlocked : List String
  stats : AchStats
  unlock_history : List String
  deriving Repr, DecidableEq

/-- _initialize_user. -/
def initAchUser : AchUser := ⟨[], initAchStats, []⟩

/-- The ACHIEVEMENTS registry keys, in dict insertion order. -/
def ACHIEVEMENT_IDS : List String :=
  ["first_steps", "speed_master", "perfect_streak", "audio_expert",
   "visual_expert", "habitat_explorer", "classifier_pro", "animal_collector",
   "night_owl", "day_champion", "persistence", "perfectionist"]

/-- stats.get(key, 0) over the per-type counters. -/
def getTypeCount (l : List (String × Nat)) (k : String) : Nat :=
  (l.lookup k).getD 0

/-- stats[key] = stats.get(key, 0) + 1: bump the counter, appending a new
key when the challenge type was not seen before. -/
def bumpTypeCount (l : List (String × Nat)) (k : String) : List (String × Nat) :=
  if (l.lookup k).isSome then l.map (fun p => if p.1 = k then (k, p.2 + 1) else p)
  else l ++ [(k, 1)]

/-- The criteria lambdas of the ACHIEVEMENTS registry. -/
def criteria (aid : String) (s : AchStats) : Bool :=
  if aid = "first_steps" then decide (1 ≤ s.total_completed)
  else if aid = "speed_master" then
    match s.fastest_time with
    | none => false
    | some f => decide (f < 5) && decide (0 < f)
  else if aid = "perfect_streak" then decide (5 ≤ s.current_streak)
  else if aid = "audio_expert" then decide (10 ≤ getTypeCount s.type_counts "audio")
  else if aid = "visual_expert" then decide (10 ≤ getTypeCount s.type_counts "visual")
  else if aid = "habitat_explorer" then decide (10 ≤ getTypeCount s.type_counts "habitat")
  else if aid = "classifier_pro" then
    decide (10 ≤ getTypeCount s.type_counts "classification")
  else if aid = "animal_collector" then decide (10 ≤ s.animals_discovered.length)
  else if aid = "night_owl" then decide (5 ≤ s.night_challenges)
  else if aid = "day_champion" then decide (5 ≤ s.day_challenges)
  else if aid = "persistence" then decide (50 ≤ s.total_completed)
  else if aid = "perfectionist" then
    decide (10 ≤ s.total_completed) && s.accuracy_100
  else false

/-- One iteration of the _check_achievements loop. -/
def unlockStep (s : AchUser) (aid : String) : AchUser :=
  if aid ∈ s.unlocked then s
  else if criteria aid s.stats then
    { s with unlocked := s.unlocked ++ [aid],
             unlock_history := s.unlock_history ++ [aid] }
  else s

/-- AchievementObserver._check_achievements. -/
def checkAchievements (s : AchUser) : AchUser :=
  ACHIEVEMENT_IDS.foldl unlockStep s

/-- The statistics update performed by on_challenge_completed before the
achievement check, in source order. -/
def achUpdateStats (s : AchStats) (ctype : String) (animal_id : Int)
    (time_taken : Rat) (is_correct : Bool) : AchStats :=
  let s1 := { s with total_completed := s.total_completed + 1,
                     total_correct := if is_correct then s.total_correct + 1
                                      else s.total_correct,
                     current_streak := if is_correct then s.current_streak + 1 else 0 }
  let s2 := { s1 with fastest_time :=
      if is_correct && (match s1.fastest_time with
                        | none => true
                        | some f => decide (time_taken < f)) then some time_taken
      else s1.fastest_time }
  let s3 := { s2 with type_counts := bumpTypeCount s2.type_counts ctype }
  let s4 := { s3 with animals_discovered :=
      if is_correct ∧ animal_id ∉ s3.animals_discovered then
        s3.animals_discovered ++ [animal_id]
      else s3.animals_discovered }
  { s4 with accuracy_100 := decide (s4.total_correct = s4.total_completed) }

/-- AchievementObserver.on_challenge_completed restricted to one user
record. -/
def achOnChallengeCompleted (u : AchUser) (ctype : String) (animal_id : Int)
    (time_taken : Rat) (is_correct : Bool) : AchUser :=
  checkAchievements { u with stats := achUpdateStats u.stats ctype animal_id
                                        time_taken is_correct }

/-- AchievementObserver.on_challenge_started only performs the lazy
initialization; on an existing user record it changes nothing. -/
def achOnChallengeStarted (u : AchUser) : AchUser := u

/-! ## Challenge factory (factories/challenge_factory.py) -/

/-- A registered constructor: animal id and difficulty to a challenge
(construction can fail on an unknown animal id, a ValueError in Python). -/
abbrev Ctor := Int → Int → Except String ChallengeData

/-- AudioChallenge constructor (the generated challenge_id and the media
file are not modelled). -/
def audioCtor (db : List Animal) : Ctor := fun a d =>
  (getAnimalData db a).map (fun an => ⟨"audio", a, d, an.name_pt⟩)

/-- VisualChallenge constructor. -/
def visualCtor (db : List Animal) : Ctor := fun a d =>
  (getAnimalData db a).map (fun an => ⟨"visual", a, d, an.name_pt⟩)

/-- HabitatChallenge constructor: correct_answer = HABITATS[animal.habitat]. -/
def habitatCtor (db : List Animal) : Ctor := fun a d =>
  match getAnimalData db a with
  | .error e => .error e
  | .ok an =>
    match HABITATS.lookup an.habitat with
    | some h => .ok ⟨"habitat", a, d, h⟩
    | none => .error ("KeyError: " ++ an.habitat)

/-- ClassificationChallenge constructor: correct_answer = animal.diet. -/
def classificationCtor (db : List Animal) : Ctor := fun a d =>
  (getAnimalData db a).map (fun an => ⟨"classification", a, d, an.diet⟩)

/-- The initial _challenge_types registry, in insertion order. -/
def defaultRegistry (db : List Animal) : List (String × Ctor) :=
  [("audio", audioCtor db), ("visual", visualCtor db),
   ("habitat", habitatCtor db), ("classification", classificationCtor db)]

/-- Python str.join over a separator. -/
def pyJoin (sep : String) : List String → String
  | [] => ""
  | [x] => x
  | x :: y :: xs => x ++ sep ++ pyJoin sep (y :: xs)

/-- The ValueError message of create_challenge for an unknown type: it
names the requested type and enumerates every currently registered type
name (source text additionally quotes the type name). -/
def unknownTypeMsg (t : String) (names : List String) : String :=
  "Tipo de desafio inválido: " ++ t ++ ". Tipos disponíveis: " ++ pyJoin ", " names

/-- ChallengeFactory.create_challenge over an explicit registry. -/
def createChallenge (reg : List (String × Ctor)) (t : String)
    (animal_id difficulty : Int) : Except String ChallengeData :=
  match reg.lookup t with
  | none => .error (unknownTypeMsg t (reg.map Prod.fst))
  | some c => c animal_id difficulty

/-- Decidable check: the factory call succeeded and produced a challenge
whose discriminator is the requested type. -/
def checkCreateOk (e : Except String ChallengeData) (t : String) : Bool :=
  match e with
  | .ok ch => ch.ctype == t
  | .error _ => false

/-! ## Concrete data for counterexamples and witnesses -/

/-- A savanna animal not in the shipped DB; animal data is deployment
input, and the claims quantify over animals with enough habitat mates. -/
def zebra : Animal := ⟨6, "Zebra", "savana", "diurno", "Herbívoro"⟩

/-- Another savanna animal. -/
def girafa : Animal := ⟨7, "Girafa", "savana", "diurno", "Herbívoro"⟩

/-- The shipped DB extended with two more savanna animals, giving the lion
three habitat mates. -/
def db7 : List Animal := ANIMALS_DB ++ [zebra, girafa]

/-- The lion record (id 1 of ANIMALS_DB). -/
def leao : Animal := ⟨1, "Leão", "savana", "diurno", "Carnívoro"⟩

/-- A possible outcome of random.shuffle over the six habitat names, with
the savanna name last. -/
def badShuffle : List String :=
  ["Floresta Tropical", "Oceano", "Deserto", "Montanhas", "Regiões Polares",
   "Savana Africana"]

/-- The elephant record (id 2 of ANIMALS_DB). -/
def elefante : Animal := ⟨2, "Elefante", "savana", "diurno", "Herbívoro"⟩

/-- A freshly started timed decorator around a challenge whose correct
answer is the lion, with the default 30 second limit, started at time 0. -/
def demoTimed : TimedState := ⟨30, some 0, none, false, "Leão"⟩

/-- The classification challenge for the lion. -/
def demoChallenge : ChallengeData := ⟨"classification", 1, 1, "Carnívoro"⟩

/-! ## Helper lemmas -/

theorem levelScan_LEVELS (xp : Int) (cur : Nat) (h : 0 ≤ xp) :
    levelScan LEVELS xp cur = claimHighestLevel xp := by
  simp only [LEVELS, levelScan, claimHighestLevel]
  split_ifs <;> omega

theorem difficultyBonus_nonneg (d : PyDiff) : 0 ≤ difficultyBonus d := by
  cases d with
  | int n => simp [difficultyBonus]
  | str s => simp only [difficultyBonus]; split_ifs <;> norm_num

theorem speedBonus_nonneg (t : Rat) : 0 ≤ speedBonus t := by
  simp only [speedBonus]; split_ifs <;> norm_num

theorem one_le_typeMultiplier (t : String) : 1 ≤ typeMultiplier t := by
  simp only [typeMultiplier, XP_MULTIPLIERS, List.lookup]
  repeat' split
  all_goals norm_num

theorem calculateXp_nonneg (t : String) (d : PyDiff) (c : Bool) (tt : Rat) :
    0 ≤ calculateXp t d c tt := by
  cases c with
  | false => simp [calculateXp]
  | true =>
    simp only [calculateXp, Bool.not_true, Bool.false_eq_true, if_false, pyInt]
    have h1 := difficultyBonus_nonneg d
    have h2 := one_le_typeMultiplier t
    have h3 := speedBonus_nonneg tt
    have hq : (0 : Rat) ≤ (10 + difficultyBonus d) * typeMultiplier t + speedBonus tt := by
      have : (0 : Rat) ≤ (10 + difficultyBonus d) * typeMultiplier t :=
        mul_nonneg (by linarith) (by linarith)
      linarith
    rw [if_pos hq]
    exact Int.floor_nonneg.mpr hq

theorem pyInt_eq_floor {q : Rat} (h : 0 ≤ q) : pyInt q = ⌊q⌋ := if_pos h

theorem progStep_current_xp (u : ProgUser) (a : CompletionArgs) :
    (progOnChallengeCompleted u a).current_xp =
      u.current_xp + calculateXp a.ctype a.difficulty a.is_correct a.time_taken := by
  simp only [progOnChallengeCompleted]
  split <;> rfl

theorem progStep_level (u : ProgUser) (a : CompletionArgs) :
    (progOnChallengeCompleted u a).level =
      checkLevelUp (u.current_xp + calculateXp a.ctype a.difficulty a.is_correct
        a.time_taken) u.level := by
  simp only [progOnChallengeCompleted]
  split <;> rfl

set_option maxHeartbeats 1000000 in
theorem claimHighestLevel_mono {x y : Int} (h : x ≤ y) :
    claimHighestLevel x ≤ claimHighestLevel y := by
  simp only [claimHighestLevel]
  split_ifs <;> omega

theorem progStep_inv (u : ProgUser) (a : CompletionArgs) (h0 : 0 ≤ u.current_xp)
    (hl : u.level = claimHighestLevel u.current_xp) :
    0 ≤ (progOnChallengeCompleted u a).current_xp ∧
      (progOnChallengeCompleted u a).level =
        claimHighestLevel (progOnChallengeCompleted u a).current_xp ∧
      u.level ≤ (progOnChallengeCompleted u a).level := by
  have hxp := calculateXp_nonneg a.ctype a.difficulty a.is_correct a.time_taken
  have h0n : 0 ≤ u.current_xp + calculateXp a.ctype a.difficulty a.is_correct
      a.time_taken := by linarith
  have e1 := progStep_current_xp u a
  have e2 := progStep_level u a
  refine ⟨by rw [e1]; exact h0n, ?_, ?_⟩
  · rw [e1, e2, checkLevelUp, levelScan_LEVELS _ _ h0n]
  · rw [e2, checkLevelUp, levelScan_LEVELS _ _ h0n, hl]
    exact claimHighestLevel_mono (by linarith)

theorem progFoldl_inv (l : List CompletionArgs) (s : ProgUser) (h0 : 0 ≤ s.current_xp)
    (hl : s.level = claimHighestLevel s.current_xp) :
    0 ≤ (l.foldl progOnChallengeCompleted s).current_xp ∧
      (l.foldl progOnChallengeCompleted s).level =
        claimHighestLevel (l.foldl progOnChallengeCompleted s).current_xp ∧
      s.level ≤ (l.foldl progOnChallengeCompleted s).level := by
  induction l generalizing s with
  | nil => exact ⟨h0, hl, le_refl _⟩
  | cons a t ih =>
    obtain ⟨i0, i1, i2⟩ := progStep_inv s a h0 hl
    obtain ⟨j0, j1, j2⟩ := ih (progOnChallengeCompleted s a) i0 i1
    exact ⟨j0, j1, le_trans i2 j2⟩

theorem runCompletions_inv (l : List CompletionArgs) :
    0 ≤ (runCompletions l).current_xp ∧
      (runCompletions l).level = claimHighestLevel (runCompletions l).current_xp := by
  have h := progFoldl_inv l initProgUser (by decide) (by decide)
  exact ⟨h.1, h.2.1⟩

/-! ## Claim theorems -/

/-- C3: for every correct completion the XP awarded equals
floor((10 + difficultyBonus) * typeMultiplier + speedBonus) with multiplier
1.0/1.1/1.2/1.5 for audio/visual/habitat/classification, speed bonus
10/5/2/0 below 5/10/20 seconds, and the difficulty bonus from the named
tier lookup (an integer difficulty degenerates to 0); a correct
classification answer in 3 seconds with an integer difficulty awards
exactly 25 XP, and every incorrect completion awards 0 XP. -/
theorem xp_formula_correct :
    (∀ t ∈ (["audio", "visual", "habitat", "classification"] : List String),
       ∀ (d : PyDiff) (tt : Rat),
         calculateXp t d true tt = claimXp t d tt ∧ calculateXp t d false tt = 0) ∧
    ∀ n : Int, calculateXp "classification" (.int n) true 3 = 25 := by
  constructor
  · intro t ht d tt
    have hmul : typeMultiplier t = claimTypeMultiplier t := by
      fin_cases ht <;> rfl
    have hdb : difficultyBonus d = claimDifficultyBonus d := by
      cases d <;> rfl
    have hsb : speedBonus tt = claimSpeedBonus tt := rfl
    constructor
    · have h1 := difficultyBonus_nonneg d
      have h2 := one_le_typeMultiplier t
      have h3 := speedBonus_nonneg tt
      have hq : (0 : Rat) ≤ (10 + difficultyBonus d) * typeMultiplier t
          + speedBonus tt := by
        have : (0 : Rat) ≤ (10 + difficultyBonus d) * typeMultiplier t :=
          mul_nonneg (by linarith) (by linarith)
        linarith
      simp only [calculateXp, Bool.not_true, Bool.false_eq_true, if_false]
      rw [pyInt_eq_floor hq, claimXp, hmul, hdb, hsb]
    · simp [calculateXp]
  · intro n
    have h : calculateXp "classification" (.int n) true 3
        = calculateXp "classification" (.int 0) true 3 := by
      simp [calculateXp, difficultyBonus]
    have hm : typeMultiplier "classification" = 3/2 := rfl
    rw [h]
    norm_num [calculateXp, difficultyBonus, speedBonus, pyInt, hm]

/-- C4: after each completion (and each bonus XP award) the stored level is
the highest level of the threshold table whose requirement is at most the
cumulative current XP; the boundary is inclusive, so exactly 100 cumulative
XP (reached in one step from 0 or from 99 plus 1) moves level 1 to level 2. -/
theorem level_matches_threshold_table :
    (∀ l : List CompletionArgs,
       (runCompletions l).level = claimHighestLevel (runCompletions l).current_xp) ∧
    claimHighestLevel 100 = 2 ∧ claimHighestLevel 99 = 1 ∧
    (awardBonusXp initProgUser 100).level = 2 ∧
    (awardBonusXp (awardBonusXp initProgUser 99) 1).level = 2 := by
  refine ⟨fun l => (runCompletions_inv l).2, by decide, by decide, by decide, by decide⟩

/-- C10: the XP of one completion is never negative, and across any
sequence of completion notifications the level is monotonically
non-decreasing. -/
theorem level_monotone :
    (∀ a : CompletionArgs,
       0 ≤ calculateXp a.ctype a.difficulty a.is_correct a.time_taken) ∧
    ∀ pre ext : List CompletionArgs,
      (runCompletions pre).level ≤ (runCompletions (pre ++ ext)).level := by
  constructor
  · intro a
    exact calculateXp_nonneg a.ctype a.difficulty a.is_correct a.time_taken
  · intro pre ext
    have h := runCompletions_inv pre
    have h2 := progFoldl_inv ext (runCompletions pre) h.1 h.2
    calc (runCompletions pre).level
        ≤ (ext.foldl progOnChallengeCompleted (runCompletions pre)).level := h2.2.2
      _ = (runCompletions (pre ++ ext)).level := by
          rw [runCompletions, runCompletions, List.foldl_append]

end DiaNoite

namespace DiaNoite

theorem validateAnswer_snd (st : TimedState) (w : Bool) (now : Rat) :
    (validateAnswer st w now).2 = latchSubmission st now := by
  simp only [validateAnswer]
  split <;> rfl

/-- C3 witness: the audio type is one of the four, and a correct medium
difficulty audio answer in 7 seconds earns the claimed formula value. -/
theorem xp_formula_correct_witness :
    ("audio" ∈ (["audio", "visual", "habitat", "classification"] : List String)) ∧
    calculateXp "audio" (.str "medium") true 7 = claimXp "audio" (.str "medium") 7 :=
  ⟨by decide, (xp_formula_correct.1 "audio" (by decide) (.str "medium") 7).1⟩

/-- C2: for a well-formed decorator state with a non-negative limit,
validate_answer returns false whenever the elapsed time at the moment of
the call exceeds the time limit, and otherwise returns exactly the wrapped
challenge validation result. -/
theorem validate_timeout_overrides (st : TimedState) (w : Bool) (now : Rat)
    (hlim : 0 ≤ st.time_limit_seconds) (hwf : TimedWF st) :
    (validateAnswer st w now).1 =
      if (st.time_limit_seconds : Rat) < getElapsedTime st now then false else w := by
  obtain ⟨lim, start, end_, sub, ca⟩ := st
  simp only [TimedWF] at hwf
  have hnn : ¬((lim : Rat) < 0) := by
    rw [not_lt]
    exact_mod_cast hlim
  cases sub with
  | false =>
    have hend : end_ = none := hwf.mp rfl
    subst hend
    cases start with
    | none =>
      simp only [validateAnswer, latchSubmission, isTimedOut, getElapsedTime]
      simp [hnn]
    | some s =>
      by_cases hc : (lim : Rat) < round2 (now - s) <;>
        simp [validateAnswer, latchSubmission, isTimedOut, getElapsedTime, hc]
  | true =>
    cases end_ with
    | none =>
      have := hwf.mpr rfl
      simp at this
    | some e =>
      cases start with
      | none =>
        simp only [validateAnswer, latchSubmission, isTimedOut, getElapsedTime]
        simp [hnn]
      | some s =>
        by_cases hc : (lim : Rat) < round2 (e - s) <;>
          simp [validateAnswer, latchSubmission, isTimedOut, getElapsedTime, hc]

/-- C2 witness: a fresh well-formed state with limit 30 validated at time 3. -/
theorem validate_timeout_overrides_witness :
    (0 : Int) ≤ demoTimed.time_limit_seconds ∧ TimedWF demoTimed ∧
    (validateAnswer demoTimed true 3).1 =
      (if (demoTimed.time_limit_seconds : Rat) < getElapsedTime demoTimed 3
       then false else true) :=
  ⟨by decide, by simp [TimedWF, demoTimed],
   validate_timeout_overrides demoTimed true 3 (by decide)
     (by simp [TimedWF, demoTimed])⟩

/-- C7: once validate_answer has been called on a started well-formed
decorator state, the reported elapsed time no longer depends on the clock,
a second validate_answer call leaves the state unchanged,
validate_answer_with_timing reports the latched time and also leaves the
state unchanged, and only start_timer or reset_timer clear the latch. -/
theorem time_taken_latched (st : TimedState) (s : Rat) (hstart : st.start_time = some s)
    (hwf : TimedWF st) (w1 w2 : Bool) (n1 n2 n3 : Rat) :
    getElapsedTime (validateAnswer st w1 n1).2 n2
      = getElapsedTime (validateAnswer st w1 n1).2 n3 ∧
    (validateAnswer (validateAnswer st w1 n1).2 w2 n2).2 = (validateAnswer st w1 n1).2 ∧
    (validateAnswerWithTiming (validateAnswer st w1 n1).2 w2 n2).1.time_taken
      = getElapsedTime (validateAnswer st w1 n1).2 n1 ∧
    (validateAnswerWithTiming (validateAnswer st w1 n1).2 w2 n2).2
      = (validateAnswer st w1 n1).2 ∧
    (startTimer (validateAnswer st w1 n1).2 n2).answer_submitted = false ∧
    (resetTimer (validateAnswer st w1 n1).2).answer_submitted = false := by
  obtain ⟨lim, start, end_, sub, ca⟩ := st
  simp only [TimedWF] at hwf
  simp only [Option.some.injEq] at hstart
  rw [validateAnswer_snd]
  cases sub with
  | false =>
    have hend : end_ = none := hwf.mp rfl
    subst hend
    cases start with
    | none => simp at hstart
    | some s2 =>
      simp only [latchSubmission, Bool.false_eq_true, if_neg, ite_false]
      refine ⟨rfl, ?_, ?_, ?_, rfl, rfl⟩
      · rw [validateAnswer_snd]
        simp [latchSubmission]
      · simp [validateAnswerWithTiming, latchSubmission, getElapsedTime]
      · simp [validateAnswerWithTiming, latchSubmission]
  | true =>
    cases end_ with
    | none =>
      have := hwf.mpr rfl
      simp at this
    | some e =>
      cases start with
      | none => simp at hstart
      | some s2 =>
        simp only [latchSubmission, if_pos]
        refine ⟨rfl, ?_, ?_, ?_, rfl, rfl⟩
        · rw [validateAnswer_snd]
          simp [latchSubmission]
        · simp [validateAnswerWithTiming, latchSubmission, getElapsedTime]
        · simp [validateAnswerWithTiming, latchSubmission]

/-- C7 witness: the started demo state, validated at time 3, then observed
at times 5 and 9. -/
theorem time_taken_latched_witness :
    demoTimed.start_time = some 0 ∧ TimedWF demoTimed ∧
    getElapsedTime (validateAnswer demoTimed true 3).2 5
      = getElapsedTime (validateAnswer demoTimed true 3).2 9 :=
  ⟨rfl, by simp [TimedWF, demoTimed],
   (time_taken_latched demoTimed 0 rfl (by simp [TimedWF, demoTimed])
      true true 3 5 9).1⟩

end DiaNoite

namespace DiaNoite

theorem updateAssoc_keys (l : List (String × TypeStats)) (k : String) (v : TypeStats) :
    (updateAssoc l k v).map Prod.fst = l.map Prod.fst := by
  simp only [updateAssoc, List.map_map]
  refine List.map_congr_left ?_
  intro p _
  by_cases h : p.1 = k <;> simp [h]

/-- C5: whenever the challenge type has a by_type bucket, record_response
succeeds and the stored level afterwards follows the claimed ladder: 1
below 5 total, then the (total, accuracy) tiers, else the previous level
floored at 1, computed from the updated totals. -/
theorem analytics_level_rule (u : CogUser) (ch : ChallengeData) (ans : String)
    (tt : Rat) (ts : TypeStats) (h : u.by_type.lookup ch.ctype = some ts) :
    ∃ u2 r, recordResponse u ch ans tt = .ok (u2, r) ∧
      u2.current_level
        = claimCogLevel u2.total_challenges u2.accuracy_rate u.current_level := by
  simp only [recordResponse, h]
  exact ⟨_, _, rfl, rfl⟩

/-- C5 witness: a fresh user answering the lion classification challenge. -/
theorem analytics_level_rule_witness :
    initCogUser.by_type.lookup demoChallenge.ctype = some ⟨0, 0, 0⟩ ∧
    ∃ u2 r, recordResponse initCogUser demoChallenge "Carnívoro" 3 = .ok (u2, r) ∧
      u2.current_level
        = claimCogLevel u2.total_challenges u2.accuracy_rate initCogUser.current_level :=
  ⟨rfl, analytics_level_rule initCogUser demoChallenge "Carnívoro" 3 ⟨0, 0, 0⟩ rfl⟩

/-- C9: the analytics by_type map starts with exactly the four initial
types; a completion whose type has no bucket makes record_response raise a
KeyError instead of being recorded, and a successful call never extends the
key set, so a newly registered factory type always hits the KeyError. -/
theorem analytics_keyerror_on_new_type :
    initCogUser.by_type.map Prod.fst = ["audio", "visual", "habitat", "classification"] ∧
    (∀ (u : CogUser) (ch : ChallengeData) (ans : String) (tt : Rat),
        u.by_type.lookup ch.ctype = none →
          recordResponse u ch ans tt = .error ("KeyError: " ++ ch.ctype)) ∧
    (∀ (u : CogUser) (ch : ChallengeData) (ans : String) (tt : Rat) (ts : TypeStats),
        u.by_type.lookup ch.ctype = some ts →
          ∃ u2 r, recordResponse u ch ans tt = .ok (u2, r) ∧
            u2.by_type.map Prod.fst = u.by_type.map Prod.fst) := by
  refine ⟨rfl, ?_, ?_⟩
  · intro u ch ans tt h
    simp only [recordResponse, h]
  · intro u ch ans tt ts h
    simp only [recordResponse, h]
    exact ⟨_, _, rfl, updateAssoc_keys u.by_type ch.ctype _⟩

/-- C9 witness: a challenge of freshly registered type night for a fresh
user raises, while a classification challenge is recorded with the key set
unchanged. -/
theorem analytics_keyerror_on_new_type_witness :
    initCogUser.by_type.lookup "night" = none ∧
    recordResponse initCogUser ⟨"night", 1, 1, "Leão"⟩ "Leão" 3
      = .error ("KeyError: " ++ "night") ∧
    ∃ u2 r, recordResponse initCogUser demoChallenge "Carnívoro" 3 = .ok (u2, r) ∧
      u2.by_type.map Prod.fst = initCogUser.by_type.map Prod.fst :=
  ⟨rfl,
   analytics_keyerror_on_new_type.2.1 initCogUser ⟨"night", 1, 1, "Leão"⟩ "Leão" 3 rfl,
   analytics_keyerror_on_new_type.2.2 initCogUser demoChallenge "Carnívoro" 3
     ⟨0, 0, 0⟩ rfl⟩

theorem unlockStep_mono (s : AchUser) (x a : String) (h : a ∈ s.unlocked) :
    a ∈ (unlockStep s x).unlocked := by
  simp only [unlockStep]
  split_ifs <;> simp [h]

theorem foldl_unlockStep_mono (l : List String) (s : AchUser) (a : String)
    (h : a ∈ s.unlocked) : a ∈ (l.foldl unlockStep s).unlocked := by
  induction l generalizing s with
  | nil => exact h
  | cons x xs ih => exact ih _ (unlockStep_mono s x a h)

theorem achUpdateStats_total (s : AchStats) (ct : String) (aid : Int) (tt : Rat)
    (ic : Bool) :
    (achUpdateStats s ct aid tt ic).total_completed = s.total_completed + 1 := by
  simp [achUpdateStats]

/-- C6: first_steps is locked on a fresh user record (and a started
challenge changes nothing), and after the very first completion
notification it is unlocked whatever the challenge type, animal, time or
correctness. -/
theorem first_steps_on_first_completion (ctype : String) (animal_id : Int)
    (tt : Rat) (ic : Bool) :
    ("first_steps" ∈ initAchUser.unlocked ↔ False) ∧
    achOnChallengeStarted initAchUser = initAchUser ∧
    "first_steps" ∈ (achOnChallengeCompleted initAchUser ctype animal_id tt ic).unlocked := by
  refine ⟨by simp [initAchUser], rfl, ?_⟩
  simp only [achOnChallengeCompleted, checkAchievements, ACHIEVEMENT_IDS]
  rw [List.foldl_cons]
  apply foldl_unlockStep_mono
  have hcrit : criteria "first_steps"
      (achUpdateStats initAchStats ctype animal_id tt ic) = true := by
    simp only [criteria, if_pos, decide_eq_true_eq, achUpdateStats_total]
    omega
  simp [unlockStep, initAchUser, hcrit]

end DiaNoite

namespace DiaNoite

theorem audio_count_one (db : List Animal) (an : Animal) (out : List String)
    (hmem : an ∈ db) (hnd : (db.map Animal.name_pt).Nodup)
    (h : IsAudioOptions db an out) : out.count an.name_pt = 1 := by
  obtain ⟨sample, ⟨hsub, hlen⟩, hperm⟩ := h
  rw [hperm.count_eq, List.count_cons_self]
  suffices hz : (sample.map Animal.name_pt).count an.name_pt = 0 by omega
  rw [List.count_eq_zero]
  intro hin
  obtain ⟨b, hb, hbname⟩ := List.mem_map.mp hin
  have hbc : b ∈ habitatCandidates db an.habitat an.id := hsub.subset hb
  simp only [habitatCandidates, List.mem_filter] at hbc
  obtain ⟨⟨hbdb, _⟩, hbid⟩ := hbc
  have hba : b = an := List.inj_on_of_nodup_map hnd hbdb hmem hbname
  subst hba
  simp at hbid

/-- C1 (amended): audio, visual and classification get_options contain the
correct answer exactly once (for audio/visual under the standing data
invariant that animal names in the db are pairwise distinct, as in
ANIMALS_DB; the options of a correct-diet animal always list its diet
once); habitat get_options, however, is a 4-element truncation of the
shuffled 6-name habitat vocabulary and only contains the correct answer at
most once — possibly zero times. -/
theorem options_correct_exactly_once :
    (∀ (db : List Animal) (an : Animal) (out : List String),
        an ∈ db → (db.map Animal.name_pt).Nodup → IsAudioOptions db an out →
          out.count an.name_pt = 1) ∧
    (∀ (db : List Animal) (an : Animal) (out : List String),
        an ∈ db → (db.map Animal.name_pt).Nodup → IsVisualOptions db an out →
          out.count an.name_pt = 1) ∧
    (∀ d ∈ classificationOptions, classificationOptions.count d = 1) ∧
    (∀ (shuffled : List String) (c : String), shuffled.Perm habitatValues →
        (habitatGetOptions shuffled).count c ≤ 1) := by
  refine ⟨audio_count_one, ?_, ?_, ?_⟩
  · exact fun db an out hm hn h => audio_count_one db an out hm hn h
  · intro d hd
    fin_cases hd <;> rfl
  · intro shuffled c hperm
    have hnd : shuffled.Nodup := hperm.nodup_iff.mpr (by decide)
    have hto : (habitatGetOptions shuffled).Nodup :=
      hnd.sublist (List.take_sublist 4 shuffled)
    exact List.nodup_iff_count_le_one.mp hto c

/-- C1 counterexample: in a db where the lion has three savanna mates, the
habitat challenge for the lion (correct answer Savana Africana) can return
an option list not containing the correct answer at all: the claim as
stated fails for the habitat type. -/
theorem habitat_options_may_omit_correct :
    3 ≤ (habitatCandidates db7 leao.habitat leao.id).length ∧
    badShuffle.Perm habitatValues ∧
    habitatCorrectAnswer leao = .ok "Savana Africana" ∧
    (habitatGetOptions badShuffle).count "Savana Africana" = 0 :=
  ⟨by decide, by decide, rfl, by decide⟩

/-- C1 witness: the lion audio challenge over the shipped db with the only
available distractor, and concrete classification and habitat instances. -/
theorem options_correct_exactly_once_witness :
    (leao ∈ ANIMALS_DB ∧ (ANIMALS_DB.map Animal.name_pt).Nodup ∧
      IsAudioOptions ANIMALS_DB leao ["Leão", "Elefante"] ∧
      (["Leão", "Elefante"] : List String).count leao.name_pt = 1) ∧
    ("Carnívoro" ∈ classificationOptions ∧
      classificationOptions.count "Carnívoro" = 1) ∧
    (badShuffle.Perm habitatValues ∧
      (habitatGetOptions badShuffle).count "Oceano" ≤ 1) := by
  have he : habitatCandidates ANIMALS_DB leao.habitat leao.id = [elefante] := by decide
  have hA : IsAudioOptions ANIMALS_DB leao ["Leão", "Elefante"] := by
    refine ⟨[elefante], ⟨?_, ?_⟩, ?_⟩
    · rw [he]
    · rw [he]
      decide
    · decide
  exact ⟨⟨by decide, by decide, hA,
      options_correct_exactly_once.1 ANIMALS_DB leao ["Leão", "Elefante"]
        (by decide) (by decide) hA⟩,
    ⟨by decide, options_correct_exactly_once.2.2.1 "Carnívoro" (by decide)⟩,
    ⟨by decide, options_correct_exactly_once.2.2.2 badShuffle "Oceano" (by decide)⟩⟩

end DiaNoite

namespace DiaNoite

theorem pyJoin_mem_split (sep n : String) (l : List String) (h : n ∈ l) :
    ∃ left right, (pyJoin sep l).data = left ++ n.data ++ right := by
  induction l with
  | nil => cases h
  | cons x xs ih =>
    cases xs with
    | nil =>
      have hx : n = x := by simpa using h
      subst hx
      exact ⟨[], [], by simp [pyJoin]⟩
    | cons y ys =>
      rcases List.mem_cons.mp h with h1 | h2
      · subst h1
        refine ⟨[], (sep ++ pyJoin sep (y :: ys)).data, ?_⟩
        simp [pyJoin]
      · obtain ⟨l1, r1, e⟩ := ih h2
        refine ⟨(x ++ sep).data ++ l1, r1, ?_⟩
        simp [pyJoin, e]

/-- C8: create_challenge on a type absent from the registry fails with the
unknown-type error whose message enumerates every currently registered type
name (each registered name occurs verbatim in the message); on a registered
type it returns exactly what the registered constructor builds, and over
the initial registry with a known animal it succeeds with a challenge of
the requested type. -/
theorem factory_dispatch :
    (∀ (reg : List (String × Ctor)) (t : String) (a d : Int),
        reg.lookup t = none →
          createChallenge reg t a d = .error (unknownTypeMsg t (reg.map Prod.fst)) ∧
          ∀ n ∈ reg.map Prod.fst, ∃ left right,
            (unknownTypeMsg t (reg.map Prod.fst)).data = left ++ n.data ++ right) ∧
    (∀ (reg : List (String × Ctor)) (t : String) (a d : Int) (c : Ctor),
        reg.lookup t = some c → createChallenge reg t a d = c a d) ∧
    (∀ a : Int, a ∈ ANIMALS_DB.map Animal.id →
        ∀ t ∈ (["audio", "visual", "habitat", "classification"] : List String),
          checkCreateOk (createChallenge (defaultRegistry ANIMALS_DB) t a 1) t = true) := by
  refine ⟨?_, ?_, ?_⟩
  · intro reg t a d h
    refine ⟨by simp [createChallenge, h], ?_⟩
    intro n hn
    obtain ⟨l1, r1, e⟩ := pyJoin_mem_split ", " n (reg.map Prod.fst) hn
    refine ⟨("Tipo de desafio inválido: " ++ t ++ ". Tipos disponíveis: ").data ++ l1,
      r1, ?_⟩
    simp [unknownTypeMsg, e]
  · intro reg t a d c h
    simp [createChallenge, h]
  · intro a ha t ht
    fin_cases ht <;> fin_cases ha <;> decide

/-- C8 witness: the bogus type fails with the enumerating message, and the
lion audio challenge is created with the audio discriminator. -/
theorem factory_dispatch_witness :
    ((defaultRegistry ANIMALS_DB).lookup "bogus" = none ∧
      createChallenge (defaultRegistry ANIMALS_DB) "bogus" 1 1
        = .error (unknownTypeMsg "bogus"
            ((defaultRegistry ANIMALS_DB).map Prod.fst)) ∧
      ∃ left right, (unknownTypeMsg "bogus"
          ((defaultRegistry ANIMALS_DB).map Prod.fst)).data
        = left ++ "classification".data ++ right) ∧
    ((1 : Int) ∈ ANIMALS_DB.map Animal.id ∧
      checkCreateOk (createChallenge (defaultRegistry ANIMALS_DB) "audio" 1 1)
        "audio" = true) := by
  have h1 := factory_dispatch.1 (defaultRegistry ANIMALS_DB) "bogus" 1 1 rfl
  exact ⟨⟨rfl, h1.1, h1.2 "classification" (by decide)⟩,
    ⟨by decide, factory_dispatch.2.2 1 (by decide) "audio" (by decide)⟩⟩

end DiaNoite
